import Mathlib

/-
Verification development for the orbit RISC-V RV32I instruction decoder
(api/src/decode/risc-v-decoder.service.ts).  JavaScript strings are
embedded as lists of characters, JS numbers appearing here are exact
integers (all arithmetic in the decoder stays far below 2^53, so Nat/Int
model them exactly), and thrown errors are modelled by `Except` carrying
the error message string.
-/

set_option maxHeartbeats 1000000

/-- JavaScript strings are modelled as lists of characters. -/
abbrev Str := List Char

/-- The characters matched by the JavaScript regex character class \s. -/
def jsWhitespaceChars : List Char :=
  ['\t', '\n', '\x0b', '\x0c', '\r', ' ', '\u00A0', '\u1680', '\u2000', '\u2001', '\u2002', '\u2003', '\u2004', '\u2005', '\u2006', '\u2007', '\u2008', '\u2009', '\u200A', '\u2028', '\u2029', '\u202F', '\u205F', '\u3000', '\uFEFF']

/-- Test for JS whitespace (the regex /\s/ used by decode's input cleanup). -/
def isJsWhitespace (c : Char) : Bool := jsWhitespaceChars.contains c

/-- Property access on a JS object with string (or numeric) keys, modelled as
an association-list lookup in insertion order. -/
def lookupA {α β : Type} [DecidableEq α] : α → List (α × β) → Option β
  | _, [] => none
  | key, (k, v) :: rest => if key = k then some v else lookupA key rest

/-- JavaScript String.prototype.slice(a, b) for 0 ≤ a ≤ b (the only way the
decoder calls it). -/
def jsSlice (s : Str) (a b : Nat) : Str := (s.take b).drop a

/-- JavaScript String.prototype.padStart(w, c). -/
def padStart (w : Nat) (c : Char) (s : Str) : Str :=
  List.replicate (w - s.length) c ++ s

/-- Value of an uppercase hexadecimal digit character. -/
def hexDigitVal (c : Char) : Nat :=
  if c.toNat ≤ 57 then c.toNat - 48 else c.toNat - 55

/-- JS parseInt(s, 16) on a string of hexadecimal digits. -/
def parseIntHex (s : Str) : Nat :=
  s.foldl (fun acc c => 16 * acc + hexDigitVal c) 0

/-- Value of a binary digit character. -/
def binDigitVal (c : Char) : Nat := if c = '1' then 1 else 0

/-- JS parseInt(s, 2) on a string of binary digits. -/
def parseIntBin (s : Str) : Nat :=
  s.foldl (fun acc c => 2 * acc + binDigitVal c) 0

/-- Digit character in a base up to 16; letter digits are produced in upper
case, matching the decoder's use of toString(16) followed by toUpperCase(). -/
def digitChar (d : Nat) : Char :=
  if d < 10 then Char.ofNat (48 + d) else Char.ofNat (55 + d)

/-- Fuel-driven most-significant-first digit expansion of a positive number.
The fuel argument only bounds the recursion; any fuel ≥ n gives the digits
of n. -/
def digitsAux (base : Nat) : Nat → Nat → Str
  | _, 0 => []
  | 0, _ + 1 => []
  | fuel + 1, n + 1 =>
      digitsAux base fuel ((n + 1) / base) ++ [digitChar ((n + 1) % base)]

/-- JS Number.prototype.toString(base) for a nonnegative integer: minimal
digit string, and the single digit "0" for zero. -/
def natToDigits (base n : Nat) : Str := if n = 0 then ['0'] else digitsAux base n n

/-- JS decimal rendering of a nonnegative integer. -/
def natToDec (n : Nat) : Str := natToDigits 10 n

/-- JS uppercase hexadecimal rendering of a nonnegative integer
(toString(16) followed by toUpperCase()). -/
def natToHexUpper (n : Nat) : Str := natToDigits 16 n

/-- JS decimal rendering of an integer (toString on a possibly negative
number). -/
def intToDec (i : Int) : Str :=
  if i < 0 then '-' :: natToDec i.natAbs else natToDec i.toNat

/-- private hexToBinary(hex) : parseInt(hex, 16).toString(2).padStart(32, '0'). -/
def hexToBinary (hex : Str) : Str :=
  padStart 32 '0' (natToDigits 2 (parseIntHex hex))

/-- private signExtend(binary, bits).  The source computes
signBit = 1 << (bits - 1) and subtracts 1 << bits when the sign bit is set;
for the widths used (12, 13, 21) these JS shifts equal the exact powers of
two written here. -/
def signExtend (binary : Str) (bits : Nat) : Int :=
  let value := parseIntBin binary
  if value &&& 2 ^ (bits - 1) ≠ 0 then (value : Int) - (2 ^ bits : Int)
  else (value : Int)

/-- interfaces/instruction.interface.ts: InstructionFormat.  bitRanges is the
source's string-keyed object in insertion order; each entry is
(fieldName, low, high) for the architectural bit range [high, low]. -/
structure InstructionFormat where
  name : Str
  fields : List Str
  bitRanges : List (Str × Nat × Nat)
  deriving DecidableEq

/-- interfaces/instruction.interface.ts: OpcodeInfo. -/
structure OpcodeInfo where
  opcode : Str
  instructionType : Str
  mnemonic : Str
  format : Str
  description : Str
  deriving DecidableEq

/-- interfaces/instruction.interface.ts: DecodedInstruction.  The fields
object is modelled as an association list in insertion order. -/
structure DecodedInstruction where
  hex : Str
  binary : Str
  opcode : Str
  instructionType : Str
  mnemonic : Str
  operands : List Str
  description : Str
  fields : List (Str × Str)
  deriving DecidableEq

/-- The R-type entry of instructionFormats. -/
def fmtR : InstructionFormat :=
  { name := ("R-type").data,
    fields := [("funct7").data, ("rs2").data, ("rs1").data, ("funct3").data,
               ("rd").data, ("opcode").data],
    bitRanges := [(("funct7").data, 25, 31), (("rs2").data, 20, 24),
                  (("rs1").data, 15, 19), (("funct3").data, 12, 14),
                  (("rd").data, 7, 11), (("opcode").data, 0, 6)] }

/-- The I-type entry of instructionFormats. -/
def fmtI : InstructionFormat :=
  { name := ("I-type").data,
    fields := [("imm[11:0]").data, ("rs1").data, ("funct3").data,
               ("rd").data, ("opcode").data],
    bitRanges := [(("imm[11:0]").data, 20, 31), (("rs1").data, 15, 19),
                  (("funct3").data, 12, 14), (("rd").data, 7, 11),
                  (("opcode").data, 0, 6)] }

/-- The S-type entry of instructionFormats. -/
def fmtS : InstructionFormat :=
  { name := ("S-type").data,
    fields := [("imm[11:5]").data, ("rs2").data, ("rs1").data,
               ("funct3").data, ("imm[4:0]").data, ("opcode").data],
    bitRanges := [(("imm[11:5]").data, 25, 31), (("rs2").data, 20, 24),
                  (("rs1").data, 15, 19), (("funct3").data, 12, 14),
                  (("imm[4:0]").data, 7, 11), (("opcode").data, 0, 6)] }

/-- The B-type entry of instructionFormats. -/
def fmtB : InstructionFormat :=
  { name := ("B-type").data,
    fields := [("imm[12|10:5]").data, ("rs2").data, ("rs1").data,
               ("funct3").data, ("imm[4:1|11]").data, ("opcode").data],
    bitRanges := [(("imm[12|10:5]").data, 25, 31), (("rs2").data, 20, 24),
                  (("rs1").data, 15, 19), (("funct3").data, 12, 14),
                  (("imm[4:1|11]").data, 7, 11), (("opcode").data, 0, 6)] }

/-- The U-type entry of instructionFormats. -/
def fmtU : InstructionFormat :=
  { name := ("U-type").data,
    fields := [("imm[31:12]").data, ("rd").data, ("opcode").data],
    bitRanges := [(("imm[31:12]").data, 12, 31), (("rd").data, 7, 11),
                  (("opcode").data, 0, 6)] }

/-- The J-type entry of instructionFormats. -/
def fmtJ : InstructionFormat :=
  { name := ("J-type").data,
    fields := [("imm[20|10:1|11|19:12]").data, ("rd").data, ("opcode").data],
    bitRanges := [(("imm[20|10:1|11|19:12]").data, 12, 31),
                  (("rd").data, 7, 11), (("opcode").data, 0, 6)] }

/-- RiscVDecoderService.instructionFormats, keyed by family letter, in
source order. -/
def instructionFormats : List (Str × InstructionFormat) :=
  [(("R").data, fmtR), (("I").data, fmtI), (("S").data, fmtS),
   (("B").data, fmtB), (("U").data, fmtU), (("J").data, fmtJ)]

/-- opcodeMap entry 0110011 (register-register). -/
def infoRType : OpcodeInfo :=
  { opcode := ("0110011").data, instructionType := ("R").data,
    mnemonic := ("R-type").data, format := ("R").data,
    description := ("Register-Register operations").data }

/-- opcodeMap entry 0010011 (register-immediate). -/
def infoIArith : OpcodeInfo :=
  { opcode := ("0010011").data, instructionType := ("I").data,
    mnemonic := ("I-type").data, format := ("I").data,
    description := ("Register-Immediate operations").data }

/-- opcodeMap entry 0000011 (loads). -/
def infoILoad : OpcodeInfo :=
  { opcode := ("0000011").data, instructionType := ("I").data,
    mnemonic := ("I-type").data, format := ("I").data,
    description := ("Load instructions").data }

/-- opcodeMap entry 0100011 (stores). -/
def infoStore : OpcodeInfo :=
  { opcode := ("0100011").data, instructionType := ("S").data,
    mnemonic := ("S-type").data, format := ("S").data,
    description := ("Store instructions").data }

/-- opcodeMap entry 1100011 (branches). -/
def infoBranch : OpcodeInfo :=
  { opcode := ("1100011").data, instructionType := ("B").data,
    mnemonic := ("B-type").data, format := ("B").data,
    description := ("Branch instructions").data }

/-- opcodeMap entry 0110111 (lui). -/
def infoLui : OpcodeInfo :=
  { opcode := ("0110111").data, instructionType := ("U").data,
    mnemonic := ("lui").data, format := ("U").data,
    description := ("Load Upper Immediate").data }

/-- opcodeMap entry 0010111 (auipc). -/
def infoAuipc : OpcodeInfo :=
  { opcode := ("0010111").data, instructionType := ("U").data,
    mnemonic := ("auipc").data, format := ("U").data,
    description := ("Add Upper Immediate to PC").data }

/-- opcodeMap entry 1101111 (jal). -/
def infoJal : OpcodeInfo :=
  { opcode := ("1101111").data, instructionType := ("J").data,
    mnemonic := ("jal").data, format := ("J").data,
    description := ("Jump and Link").data }

/-- opcodeMap entry 1100111 (jalr). -/
def infoJalr : OpcodeInfo :=
  { opcode := ("1100111").data, instructionType := ("I").data,
    mnemonic := ("jalr").data, format := ("I").data,
    description := ("Jump and Link Register").data }

/-- opcodeMap entry 0001111 (fence). -/
def infoFence : OpcodeInfo :=
  { opcode := ("0001111").data, instructionType := ("I").data,
    mnemonic := ("fence").data, format := ("I").data,
    description := ("Fence instruction").data }

/-- opcodeMap entry 1110011 (system). -/
def infoSystem : OpcodeInfo :=
  { opcode := ("1110011").data, instructionType := ("I").data,
    mnemonic := ("I-type").data, format := ("I").data,
    description := ("System instructions").data }

/-- RiscVDecoderService.opcodeMap, in source order. -/
def opcodeMap : List (Str × OpcodeInfo) :=
  [(("0110011").data, infoRType), (("0010011").data, infoIArith),
   (("0000011").data, infoILoad), (("0100011").data, infoStore),
   (("1100011").data, infoBranch), (("0110111").data, infoLui),
   (("0010111").data, infoAuipc), (("1101111").data, infoJal),
   (("1100111").data, infoJalr), (("0001111").data, infoFence),
   (("1110011").data, infoSystem)]

/-- RiscVDecoderService.rTypeInstructions: funct7 then funct3. -/
def rTypeInstructions : List (Str × List (Str × Str)) :=
  [ (("0000000").data,
     [(("000").data, ("add").data), (("001").data, ("sll").data),
      (("010").data, ("slt").data), (("011").data, ("sltu").data),
      (("100").data, ("xor").data), (("101").data, ("srl").data),
      (("110").data, ("or").data), (("111").data, ("and").data)]),
    (("0100000").data,
     [(("000").data, ("sub").data), (("101").data, ("sra").data)]) ]

/-- RiscVDecoderService.iTypeInstructions: funct3 to mnemonic. -/
def iTypeInstructions : List (Str × Str) :=
  [(("000").data, ("addi").data), (("001").data, ("slli").data),
   (("010").data, ("slti").data), (("011").data, ("sltiu").data),
   (("100").data, ("xori").data), (("101").data, ("srli").data),
   (("110").data, ("ori").data), (("111").data, ("andi").data)]

/-- RiscVDecoderService.iTypeShiftInstructions: funct7 then funct3. -/
def iTypeShiftInstructions : List (Str × List (Str × Str)) :=
  [ (("0000000").data, [(("101").data, ("srli").data)]),
    (("0100000").data, [(("101").data, ("srai").data)]) ]

/-- RiscVDecoderService.loadInstructions. -/
def loadInstructions : List (Str × Str) :=
  [(("000").data, ("lb").data), (("001").data, ("lh").data),
   (("010").data, ("lw").data), (("100").data, ("lbu").data),
   (("101").data, ("lhu").data)]

/-- RiscVDecoderService.storeInstructions. -/
def storeInstructions : List (Str × Str) :=
  [(("000").data, ("sb").data), (("001").data, ("sh").data),
   (("010").data, ("sw").data)]

/-- RiscVDecoderService.branchInstructions. -/
def branchInstructions : List (Str × Str) :=
  [(("000").data, ("beq").data), (("001").data, ("bne").data),
   (("100").data, ("blt").data), (("101").data, ("bge").data),
   (("110").data, ("bltu").data), (("111").data, ("bgeu").data)]

/-- RiscVDecoderService.csrInstructions. -/
def csrInstructions : List (Str × Str) :=
  [(("001").data, ("csrrw").data), (("010").data, ("csrrs").data),
   (("011").data, ("csrrc").data), (("101").data, ("csrrwi").data),
   (("110").data, ("csrrsi").data), (("111").data, ("csrrci").data)]

/-- The ABI register name table inside getRegisterName (registers 18 to 27
are absent from it in the source). -/
def abiNames : List (Nat × Str) :=
  [(0, ("zero").data), (1, ("ra").data), (2, ("sp").data), (3, ("gp").data),
   (4, ("tp").data), (5, ("t0").data), (6, ("t1").data), (7, ("t2").data),
   (8, ("s0").data), (9, ("s1").data), (10, ("a0").data), (11, ("a1").data),
   (12, ("a2").data), (13, ("a3").data), (14, ("a4").data), (15, ("a5").data),
   (16, ("a6").data), (17, ("a7").data), (28, ("t3").data), (29, ("t4").data),
   (30, ("t5").data), (31, ("t6").data)]

/-- private getRegisterName(regNum): ABI name if present, else "x" ++ number. -/
def getRegisterName (regNum : Nat) : Str :=
  (lookupA regNum abiNames).getD ('x' :: natToDec regNum)

/-- The InvalidHexFormat error message thrown by decode. -/
def invalidHexMsg : Str :=
  ("Invalid hex input. Must be 8 hex characters (32-bit instruction).").data

/-- The UnknownOpcode error message thrown by decode. -/
def unknownOpcodeMsg (opcode : Str) : Str := ("Unknown opcode: ").data ++ opcode

/-- decode's input cleanup: hex.replace(/\s/g, '').toUpperCase(). -/
def cleanOf (hex : Str) : Str :=
  (hex.filter (fun c => !(isJsWhitespace c))).map Char.toUpper

/-- decode's validation regex /^[0-9A-F]{8}$/ on the cleaned input. -/
def isUpperHexDigit (c : Char) : Bool :=
  (48 ≤ c.toNat && c.toNat ≤ 57) || (65 ≤ c.toNat && c.toNat ≤ 70)

/-- The cleaned input matches /^[0-9A-F]{8}$/. -/
def isValidHex8 (s : Str) : Bool := s.length == 8 && s.all isUpperHexDigit

/-- private extractFields(binary, format): for each bitRanges entry
[start, end], slice binary from 31 - end to (31 - start) + 1, keeping the
object's insertion order. -/
def extractFields (binary : Str) (format : InstructionFormat) :
    List (Str × Str) :=
  format.bitRanges.map
    (fun entry => (entry.1, jsSlice binary (31 - entry.2.2) ((31 - entry.2.1) + 1)))

/-- private getMnemonic(opcodeInfo, fields), mirroring the source's switch
on instructionType and its nested opcode/funct3 conditionals. -/
def getMnemonic (opcodeInfo : OpcodeInfo) (fields : List (Str × Str)) : Str :=
  if opcodeInfo.instructionType = ("R").data then
    let funct7 := (lookupA (("funct7").data) fields).getD []
    let rFunct3 := (lookupA (("funct3").data) fields).getD []
    (((lookupA funct7 rTypeInstructions).bind
        (lookupA rFunct3)).getD (("unknown").data))
  else if opcodeInfo.instructionType = ("I").data then
    let iFunct3 := (lookupA (("funct3").data) fields).getD []
    if opcodeInfo.opcode = ("0000011").data then
      (lookupA iFunct3 loadInstructions).getD (("unknown").data)
    else if opcodeInfo.opcode = ("1110011").data then
      if iFunct3 = ("000").data then
        let imm := (lookupA (("imm[11:0]").data) fields).getD []
        if imm = ("000000000000").data then ("ecall").data
        else if imm = ("000000000001").data then ("ebreak").data
        else ("unknown").data
      else (lookupA iFunct3 csrInstructions).getD (("unknown").data)
    else if opcodeInfo.opcode = ("1100111").data then ("jalr").data
    else if opcodeInfo.opcode = ("0001111").data then
      if iFunct3 = ("001").data then ("fence.i").data else ("fence").data
    else
      if iFunct3 = ("001").data ∨ iFunct3 = ("101").data then
        let iFunct7 := jsSlice ((lookupA (("imm[11:0]").data) fields).getD []) 0 7
        match (lookupA iFunct7 iTypeShiftInstructions).bind (lookupA iFunct3) with
        | some m => m
        | none => (lookupA iFunct3 iTypeInstructions).getD (("unknown").data)
      else (lookupA iFunct3 iTypeInstructions).getD (("unknown").data)
  else if opcodeInfo.instructionType = ("S").data then
    let sFunct3 := (lookupA (("funct3").data) fields).getD []
    (lookupA sFunct3 storeInstructions).getD (("unknown").data)
  else if opcodeInfo.instructionType = ("B").data then
    let bFunct3 := (lookupA (("funct3").data) fields).getD []
    (lookupA bFunct3 branchInstructions).getD (("unknown").data)
  else if opcodeInfo.instructionType = ("U").data ∨
          opcodeInfo.instructionType = ("J").data then
    opcodeInfo.mnemonic
  else ("unknown").data

/-- private decodeFenceFlags(nibble): flags in fixed order i, o, r, w, or
"0" when no bit is set. -/
def decodeFenceFlags (nibble : Nat) : Str :=
  let flags :=
    (if nibble &&& 8 ≠ 0 then ['i'] else []) ++
    (if nibble &&& 4 ≠ 0 then ['o'] else []) ++
    (if nibble &&& 2 ≠ 0 then ['r'] else []) ++
    (if nibble &&& 1 ≠ 0 then ['w'] else [])
  if flags.length > 0 then flags else ("0").data

/-- private generateOperands(instructionType, fields, mnemonic, opcode),
mirroring the source's switch and its per-opcode special cases. -/
def generateOperands (instructionType : Str) (fields : List (Str × Str))
    (mnemonic : Str) (opcode : Str) : List Str :=
  if instructionType = ("R").data then
    [getRegisterName (parseIntBin ((lookupA (("rd").data) fields).getD [])),
     getRegisterName (parseIntBin ((lookupA (("rs1").data) fields).getD [])),
     getRegisterName (parseIntBin ((lookupA (("rs2").data) fields).getD []))]
  else if instructionType = ("I").data then
    if opcode = ("1100111").data then
      let jalrImm := signExtend ((lookupA (("imm[11:0]").data) fields).getD []) 12
      [getRegisterName (parseIntBin ((lookupA (("rd").data) fields).getD [])),
       intToDec jalrImm ++ ('(' ::
         getRegisterName (parseIntBin ((lookupA (("rs1").data) fields).getD []))) ++ [')']]
    else if opcode = ("0001111").data then
      if mnemonic = ("fence.i").data then []
      else
        let imm := parseIntBin ((lookupA (("imm[11:0]").data) fields).getD [])
        let pred := (imm >>> 8) &&& 15
        let succ := (imm >>> 4) &&& 15
        [decodeFenceFlags pred, decodeFenceFlags succ]
    else if opcode = ("0000011").data then
      let loadImm := signExtend ((lookupA (("imm[11:0]").data) fields).getD []) 12
      [getRegisterName (parseIntBin ((lookupA (("rd").data) fields).getD [])),
       intToDec loadImm ++ ('(' ::
         getRegisterName (parseIntBin ((lookupA (("rs1").data) fields).getD []))) ++ [')']]
    else if opcode = ("1110011").data then
      if mnemonic = ("ecall").data ∨ mnemonic = ("ebreak").data then []
      else
        let csr := parseIntBin ((lookupA (("imm[11:0]").data) fields).getD [])
        [getRegisterName (parseIntBin ((lookupA (("rd").data) fields).getD [])),
         ('0' :: 'x' :: natToHexUpper csr),
         if mnemonic = ("csrrwi").data ∨ mnemonic = ("csrrsi").data ∨
            mnemonic = ("csrrci").data then
           natToDec (parseIntBin ((lookupA (("rs1").data) fields).getD []))
         else
           getRegisterName (parseIntBin ((lookupA (("rs1").data) fields).getD []))]
    else
      let funct3 := (lookupA (("funct3").data) fields).getD []
      [getRegisterName (parseIntBin ((lookupA (("rd").data) fields).getD [])),
       getRegisterName (parseIntBin ((lookupA (("rs1").data) fields).getD [])),
       if funct3 = ("001").data ∨ funct3 = ("101").data then
         let immField := (lookupA (("imm[11:0]").data) fields).getD []
         natToDec (parseIntBin (immField.drop (immField.length - 5)))
       else
         intToDec (signExtend ((lookupA (("imm[11:0]").data) fields).getD []) 12)]
  else if instructionType = ("S").data then
    let sImm := signExtend (((lookupA (("imm[11:5]").data) fields).getD []) ++
                            ((lookupA (("imm[4:0]").data) fields).getD [])) 12
    [getRegisterName (parseIntBin ((lookupA (("rs2").data) fields).getD [])),
     intToDec sImm ++ ('(' ::
       getRegisterName (parseIntBin ((lookupA (("rs1").data) fields).getD []))) ++ [')']]
  else if instructionType = ("B").data then
    let bImmHi := (lookupA (("imm[12|10:5]").data) fields).getD []
    let bImmLo := (lookupA (("imm[4:1|11]").data) fields).getD []
    let bImm12 := bImmHi.take 1
    let bImm10to5 := bImmHi.drop 1
    let bImm11 := bImmLo.drop (bImmLo.length - 1)
    let bImm4to1 := bImmLo.take (bImmLo.length - 1)
    let bImmBits := bImm12 ++ bImm11 ++ bImm10to5 ++ bImm4to1 ++ ['0']
    let bImm := signExtend bImmBits 13
    [getRegisterName (parseIntBin ((lookupA (("rs1").data) fields).getD [])),
     getRegisterName (parseIntBin ((lookupA (("rs2").data) fields).getD [])),
     intToDec bImm]
  else if instructionType = ("U").data then
    let uImmBits := (lookupA (("imm[31:12]").data) fields).getD []
    let uImm := parseIntBin uImmBits
    [getRegisterName (parseIntBin ((lookupA (("rd").data) fields).getD [])),
     ('0' :: 'x' :: padStart 5 '0' (natToHexUpper uImm))]
  else if instructionType = ("J").data then
    let jImmBits := (lookupA (("imm[20|10:1|11|19:12]").data) fields).getD []
    let imm20 := jsSlice jImmBits 0 1
    let imm10to1 := jsSlice jImmBits 1 11
    let imm11 := jsSlice jImmBits 11 12
    let imm19to12 := jsSlice jImmBits 12 20
    let reconstructedImm := imm20 ++ imm19to12 ++ imm11 ++ imm10to1 ++ ['0']
    let jImm := signExtend reconstructedImm 21
    [getRegisterName (parseIntBin ((lookupA (("rd").data) fields).getD [])),
     intToDec jImm]
  else []

/-- private generateDescription(mnemonic, instructionType): the static
description table with the generic fallback. -/
def generateDescription (mnemonic : Str) (instructionType : Str) : Str :=
  let descriptions : List (Str × Str) :=
    [(("add").data, ("Add two registers").data),
     (("sub").data, ("Subtract two registers").data),
     (("sll").data, ("Shift left logical").data),
     (("slt").data, ("Set less than").data),
     (("sltu").data, ("Set less than unsigned").data),
     (("xor").data, ("Bitwise XOR").data),
     (("srl").data, ("Shift right logical").data),
     (("sra").data, ("Shift right arithmetic").data),
     (("or").data, ("Bitwise OR").data),
     (("and").data, ("Bitwise AND").data),
     (("addi").data, ("Add immediate to register").data),
     (("slli").data, ("Shift left logical immediate").data),
     (("slti").data, ("Set less than immediate").data),
     (("sltiu").data, ("Set less than immediate unsigned").data),
     (("xori").data, ("Bitwise XOR immediate").data),
     (("srli").data, ("Shift right logical immediate").data),
     (("srai").data, ("Shift right arithmetic immediate").data),
     (("ori").data, ("Bitwise OR immediate").data),
     (("andi").data, ("Bitwise AND immediate").data),
     (("lb").data, ("Load byte").data),
     (("lh").data, ("Load halfword").data),
     (("lw").data, ("Load word").data),
     (("lbu").data, ("Load byte unsigned").data),
     (("lhu").data, ("Load halfword unsigned").data),
     (("sb").data, ("Store byte").data),
     (("sh").data, ("Store halfword").data),
     (("sw").data, ("Store word").data),
     (("beq").data, ("Branch if equal").data),
     (("bne").data, ("Branch if not equal").data),
     (("blt").data, ("Branch if less than").data),
     (("bge").data, ("Branch if greater than or equal").data),
     (("bltu").data, ("Branch if less than unsigned").data),
     (("bgeu").data, ("Branch if greater than or equal unsigned").data),
     (("lui").data, ("Load upper immediate").data),
     (("auipc").data, ("Add upper immediate to PC").data),
     (("jal").data, ("Jump and link").data),
     (("jalr").data, ("Jump and link register").data),
     (("ecall").data, ("Environment call").data),
     (("ebreak").data, ("Environment break").data),
     (("fence").data, ("Fence").data),
     (("fence.i").data, ("Fence instruction cache").data),
     (("csrrw").data, ("Read/Write CSR").data),
     (("csrrs").data, ("Read and Set bits in CSR").data),
     (("csrrc").data, ("Read and Clear bits in CSR").data),
     (("csrrwi").data, ("Read/Write CSR immediate").data),
     (("csrrsi").data, ("Read and Set bits in CSR immediate").data),
     (("csrrci").data, ("Read and Clear bits in CSR immediate").data)]
  (lookupA mnemonic descriptions).getD (mnemonic ++ (" instruction").data)

/-- Placeholder format; decode never reaches it because every opcodeMap
entry's instructionType has an instructionFormats entry. -/
def defaultFormat : InstructionFormat := { name := [], fields := [], bitRanges := [] }

/-- The DecodedInstruction decode builds for a recognized opcode: format
lookup, field extraction, mnemonic resolution, operand generation,
description lookup, then the result record with the cleaned hex. -/
def mkResult (cleanHex : Str) (opcodeInfo : OpcodeInfo) : DecodedInstruction :=
  let binary := hexToBinary cleanHex
  let opcode := jsSlice binary 25 32
  let format := (lookupA opcodeInfo.instructionType instructionFormats).getD defaultFormat
  let fields := extractFields binary format
  let mnemonic := getMnemonic opcodeInfo fields
  let operands := generateOperands opcodeInfo.instructionType fields mnemonic opcodeInfo.opcode
  let description := generateDescription mnemonic opcodeInfo.instructionType
  { hex := cleanHex, binary := binary, opcode := opcode,
    instructionType := opcodeInfo.instructionType, mnemonic := mnemonic,
    operands := operands, description := description, fields := fields }

/-- The degenerate DecodedInstruction decode returns for the all-zero and
all-one opcodes; note the source places the original (uncleaned) input in
the hex field here. -/
def mkDegenerate (hex : Str) (binary : Str) (opcode : Str) : DecodedInstruction :=
  { hex := hex, binary := binary, opcode := opcode,
    instructionType := ("unknown").data, mnemonic := ("unknown").data,
    operands := [], description := ("Unknown instruction").data, fields := [] }

/-- decode(hex) of RiscVDecoderService: clean and validate the input,
expand to 32 binary digits, dispatch on the 7-bit opcode, and either build
the decoded instruction, fall back to the degenerate result for the
all-zero and all-one opcodes, or fail. -/
def decode (hex : Str) : Except Str DecodedInstruction :=
  let cleanHex := cleanOf hex
  if isValidHex8 cleanHex then
    let binary := hexToBinary cleanHex
    let opcode := jsSlice binary 25 32
    match lookupA opcode opcodeMap with
    | some opcodeInfo => Except.ok (mkResult cleanHex opcodeInfo)
    | none =>
        if opcode = ("0000000").data ∨ opcode = ("1111111").data then
          Except.ok (mkDegenerate hex binary opcode)
        else Except.error (unknownOpcodeMsg opcode)
  else Except.error invalidHexMsg

/-- Unfolding lemma for lookupA on a cons cell. -/
theorem lookupA_cons {α β : Type} [DecidableEq α] (key k : α) (v : β)
    (rest : List (α × β)) :
    lookupA key ((k, v) :: rest) = if key = k then some v else lookupA key rest := rfl

/-- Length of a slice that stays inside the string. -/
theorem jsSlice_length (s : Str) (a b : Nat) (hb : b ≤ s.length) :
    (jsSlice s a b).length = b - a := by
  simp [jsSlice, Nat.min_eq_left hb]

/-- Two adjacent slices concatenate to the enclosing slice. -/
theorem jsSlice_append (s : Str) (a b c : Nat) (hab : a ≤ b) (hbc : b ≤ c)
    (hc : c ≤ s.length) :
    jsSlice s a b ++ jsSlice s b c = jsSlice s a c := by
  unfold jsSlice
  have htt : s.take b = (s.take c).take b := by
    rw [List.take_take, Nat.min_eq_left hbc]
  rw [htt]
  have hlen : b ≤ (s.take c).length := by
    simpa [Nat.min_eq_left hc] using hbc
  conv_rhs => rw [← List.take_append_drop b (s.take c)]
  rw [List.drop_append_of_le_length]
  simp only [List.length_take]
  omega

/-- The full-width slice is the string itself. -/
theorem jsSlice_full (s : Str) : jsSlice s 0 s.length = s := by
  simp [jsSlice]

/-- Folding the binary parser from an arbitrary accumulator. -/
theorem parseIntBin_foldl (s : Str) (acc : Nat) :
    List.foldl (fun a c => 2 * a + binDigitVal c) acc s =
      acc * 2 ^ s.length + parseIntBin s := by
  induction s generalizing acc with
  | nil => simp [parseIntBin]
  | cons c t ih =>
      have h1 : parseIntBin (c :: t) = binDigitVal c * 2 ^ t.length + parseIntBin t := by
        show List.foldl _ _ (c :: t) = _
        rw [List.foldl_cons, ih]
        simp
      rw [List.foldl_cons, ih, h1, List.length_cons, Nat.pow_succ]
      ring

/-- parseInt(-, 2) splits over concatenation. -/
theorem parseIntBin_append (a b : Str) :
    parseIntBin (a ++ b) = parseIntBin a * 2 ^ b.length + parseIntBin b := by
  show List.foldl _ _ (a ++ b) = _
  rw [List.foldl_append]
  exact parseIntBin_foldl b (parseIntBin a)

/-- A run of zero characters parses to zero. -/
theorem parseIntBin_replicate_zero (k : Nat) :
    parseIntBin (List.replicate k '0') = 0 := by
  induction k with
  | zero => rfl
  | succ m ih =>
      show List.foldl _ _ (List.replicate (m + 1) '0') = 0
      rw [List.replicate_succ, List.foldl_cons]
      simpa [binDigitVal] using ih

/-- The fuel-driven binary digit expansion parses back to its input. -/
theorem parseIntBin_digitsAux (fuel n : Nat) (h : n ≤ fuel) :
    parseIntBin (digitsAux 2 fuel n) = n := by
  induction fuel generalizing n with
  | zero =>
      have hn : n = 0 := Nat.le_zero.mp h
      subst hn
      rfl
  | succ f ih =>
      match n with
      | 0 => rfl
      | m + 1 =>
          have hdiv : (m + 1) / 2 ≤ f := by
            have := Nat.div_lt_self (Nat.succ_pos m) (by omega : 1 < 2)
            omega
          have hrec := ih ((m + 1) / 2) hdiv
          show parseIntBin (digitsAux 2 f ((m + 1) / 2) ++ [digitChar ((m + 1) % 2)]) = m + 1
          rw [parseIntBin_append, hrec]
          rcases Nat.mod_two_eq_zero_or_one (m + 1) with h2 | h2 <;>
            rw [h2] <;> simp [digitChar, parseIntBin, binDigitVal] <;> omega

/-- The fuel-driven binary expansion of n fits in w digits when n < 2 ^ w. -/
theorem digitsAux_length_le (fuel : Nat) :
    ∀ n w : Nat, n ≤ fuel → n < 2 ^ w → (digitsAux 2 fuel n).length ≤ w := by
  induction fuel with
  | zero =>
      intro n w h hw
      have hn : n = 0 := Nat.le_zero.mp h
      subst hn
      simp [digitsAux]
  | succ f ih =>
      intro n w h hw
      match n with
      | 0 => simp [digitsAux]
      | m + 1 =>
          match w with
          | 0 => omega
          | v + 1 =>
              have hdiv : (m + 1) / 2 ≤ f := by
                have := Nat.div_lt_self (Nat.succ_pos m) (by omega : 1 < 2)
                omega
              have hlt : (m + 1) / 2 < 2 ^ v := by
                rw [Nat.div_lt_iff_lt_mul (by omega : 0 < 2)]
                calc m + 1 < 2 ^ (v + 1) := hw
                _ = 2 ^ v * 2 := by rw [Nat.pow_succ]
              have := ih ((m + 1) / 2) v hdiv hlt
              show (digitsAux 2 f ((m + 1) / 2) ++ [digitChar ((m + 1) % 2)]).length ≤ v + 1
              simp only [List.length_append, List.length_cons, List.length_nil]
              omega

/-- toString(2) parses back to its input. -/
theorem parseIntBin_natToDigits (n : Nat) : parseIntBin (natToDigits 2 n) = n := by
  unfold natToDigits
  by_cases h : n = 0
  · subst h; rfl
  · rw [if_neg h]
    exact parseIntBin_digitsAux n n (Nat.le_refl n)

/-- toString(2) of n < 2 ^ w uses between 1 and w digits (w positive). -/
theorem natToDigits_length_le (n w : Nat) (hw : 0 < w) (h : n < 2 ^ w) :
    (natToDigits 2 n).length ≤ w := by
  unfold natToDigits
  by_cases h0 : n = 0
  · subst h0; simpa using hw
  · rw [if_neg h0]
    exact digitsAux_length_le n n w (Nat.le_refl n) h

/-- hexToBinary produces exactly 32 characters for a 32-bit value. -/
theorem hexToBinary_length (s : Str) (h : parseIntHex s < 2 ^ 32) :
    (hexToBinary s).length = 32 := by
  unfold hexToBinary padStart
  have hle := natToDigits_length_le (parseIntHex s) 32 (by omega) h
  simp only [List.length_append, List.length_replicate]
  omega

/-- hexToBinary preserves the numeric value: parseInt(binary, 2) equals
parseInt(hex, 16). -/
theorem parseIntBin_hexToBinary (s : Str) :
    parseIntBin (hexToBinary s) = parseIntHex s := by
  unfold hexToBinary padStart
  rw [parseIntBin_append, parseIntBin_replicate_zero, parseIntBin_natToDigits]
  simp

/-- Each uppercase hex digit contributes a value below 16. -/
theorem hexDigitVal_lt (c : Char) (h : isUpperHexDigit c = true) :
    hexDigitVal c < 16 := by
  unfold isUpperHexDigit at h
  unfold hexDigitVal
  simp only [Bool.or_eq_true, Bool.and_eq_true, decide_eq_true_eq] at h
  split <;> omega

/-- Bound for the hex parser from an arbitrary accumulator. -/
theorem parseIntHex_foldl_lt (s : Str) :
    ∀ acc : Nat, (∀ c ∈ s, isUpperHexDigit c = true) →
      List.foldl (fun a c => 16 * a + hexDigitVal c) acc s < (acc + 1) * 16 ^ s.length := by
  induction s with
  | nil => intro acc _; simpa using Nat.lt_succ_self acc
  | cons c t ih =>
      intro acc hall
      rw [List.foldl_cons]
      have hc : hexDigitVal c < 16 :=
        hexDigitVal_lt c (hall c (List.mem_cons_self c t))
      have ht := ih (16 * acc + hexDigitVal c)
        (fun d hd => hall d (List.mem_cons_of_mem c hd))
      calc List.foldl _ (16 * acc + hexDigitVal c) t
          < (16 * acc + hexDigitVal c + 1) * 16 ^ t.length := ht
        _ ≤ (16 * (acc + 1)) * 16 ^ t.length := by
              apply Nat.mul_le_mul_right
              omega
        _ = (acc + 1) * 16 ^ (c :: t).length := by
              rw [List.length_cons, Nat.pow_succ]
              ring

/-- A valid 8-hex-digit string denotes a 32-bit value. -/
theorem parseIntHex_lt_of_valid (s : Str) (h : isValidHex8 s = true) :
    parseIntHex s < 2 ^ 32 := by
  unfold isValidHex8 at h
  simp only [Bool.and_eq_true, beq_iff_eq, List.all_eq_true] at h
  have := parseIntHex_foldl_lt s 0 (fun c hc => h.2 c hc)
  unfold parseIntHex
  calc List.foldl _ 0 s < (0 + 1) * 16 ^ s.length := this
    _ = 2 ^ 32 := by rw [h.1]; norm_num

/-- Inversion principle for a successful decode: the cleaned input was
valid, and the result is either the table-driven one or the degenerate
sentinel one. -/
theorem decode_ok_cases (s : Str) (r : DecodedInstruction)
    (h : decode s = Except.ok r) :
    isValidHex8 (cleanOf s) = true ∧
    ((∃ info, lookupA (jsSlice (hexToBinary (cleanOf s)) 25 32) opcodeMap = some info ∧
        r = mkResult (cleanOf s) info) ∨
     (lookupA (jsSlice (hexToBinary (cleanOf s)) 25 32) opcodeMap = none ∧
      (jsSlice (hexToBinary (cleanOf s)) 25 32 = ("0000000").data ∨
       jsSlice (hexToBinary (cleanOf s)) 25 32 = ("1111111").data) ∧
      r = mkDegenerate s (hexToBinary (cleanOf s))
            (jsSlice (hexToBinary (cleanOf s)) 25 32))) := by
  unfold decode at h
  by_cases hv : isValidHex8 (cleanOf s) = true
  · refine ⟨hv, ?_⟩
    rw [if_pos hv] at h
    dsimp only at h
    rcases hl : lookupA (jsSlice (hexToBinary (cleanOf s)) 25 32) opcodeMap with _ | info
    · rw [hl] at h
      by_cases hz : jsSlice (hexToBinary (cleanOf s)) 25 32 = ("0000000").data ∨
          jsSlice (hexToBinary (cleanOf s)) 25 32 = ("1111111").data
      · rw [if_pos hz] at h
        exact Or.inr ⟨rfl, hz, (Except.ok.inj h).symm⟩
      · rw [if_neg hz] at h
        exact absurd h (by simp)
    · rw [hl] at h
      exact Or.inl ⟨info, rfl, (Except.ok.inj h).symm⟩
  · rw [if_neg hv] at h
    exact absurd h (by simp)

/-- Case analysis on a successful opcode table lookup. -/
theorem opcodeMap_cases (op : Str) (info : OpcodeInfo)
    (h : lookupA op opcodeMap = some info) :
    (op = ("0110011").data ∧ info = infoRType) ∨
    (op = ("0010011").data ∧ info = infoIArith) ∨
    (op = ("0000011").data ∧ info = infoILoad) ∨
    (op = ("0100011").data ∧ info = infoStore) ∨
    (op = ("1100011").data ∧ info = infoBranch) ∨
    (op = ("0110111").data ∧ info = infoLui) ∨
    (op = ("0010111").data ∧ info = infoAuipc) ∨
    (op = ("1101111").data ∧ info = infoJal) ∨
    (op = ("1100111").data ∧ info = infoJalr) ∨
    (op = ("0001111").data ∧ info = infoFence) ∨
    (op = ("1110011").data ∧ info = infoSystem) := by
  unfold opcodeMap at h
  simp only [lookupA_cons] at h
  split_ifs at h <;> simp_all [lookupA]

/-- mkResult unfolded once the format lookup is resolved. -/
theorem mkResult_eq (clean : Str) (info : OpcodeInfo) (fmt : InstructionFormat)
    (hf : lookupA info.instructionType instructionFormats = some fmt) :
    mkResult clean info =
      { hex := clean, binary := hexToBinary clean,
        opcode := jsSlice (hexToBinary clean) 25 32,
        instructionType := info.instructionType,
        mnemonic := getMnemonic info (extractFields (hexToBinary clean) fmt),
        operands := generateOperands info.instructionType
          (extractFields (hexToBinary clean) fmt)
          (getMnemonic info (extractFields (hexToBinary clean) fmt)) info.opcode,
        description := generateDescription
          (getMnemonic info (extractFields (hexToBinary clean) fmt))
          info.instructionType,
        fields := extractFields (hexToBinary clean) fmt } := by
  unfold mkResult
  rw [hf]
  rfl

/-- The UnknownOpcode message never coincides with the InvalidHexFormat
message. -/
theorem unknownOpcodeMsg_ne (op : Str) : unknownOpcodeMsg op ≠ invalidHexMsg := by
  intro heq
  have h1 : (unknownOpcodeMsg op).head? = some 'U' := rfl
  have h2 : invalidHexMsg.head? = some 'I' := rfl
  rw [heq, h2] at h1
  exact absurd (Option.some.inj h1) (by decide)

/-- C1 (counterexample): an input consisting of 8 hex digits with a 0x
prefix does fail with InvalidHexFormat — decode strips whitespace but not
a 0x prefix, so the cleaned string is 10 characters and fails the
8-hex-digit test. -/
theorem decode_hexPrefixInput_fails :
    decode (("0x003100B3").data) = Except.error invalidHexMsg := by rfl

/-- C1 (amended): decode strips all whitespace, uppercases the rest, and
fails with the InvalidHexFormat message exactly when that cleaned string is
not 8 hexadecimal digits; a 0x prefix is not stripped by decode (it is
removed by the frontend before the request) and therefore fails. -/
theorem decode_invalidHexFormat_iff (s : Str) :
    decode s = Except.error invalidHexMsg ↔ isValidHex8 (cleanOf s) = false := by
  constructor
  · intro h
    cases hb : isValidHex8 (cleanOf s)
    · rfl
    · exfalso
      unfold decode at h
      rw [if_pos hb] at h
      dsimp only at h
      rcases hl : lookupA (jsSlice (hexToBinary (cleanOf s)) 25 32) opcodeMap with _ | info
      · rw [hl] at h
        by_cases hz : jsSlice (hexToBinary (cleanOf s)) 25 32 = ("0000000").data ∨
            jsSlice (hexToBinary (cleanOf s)) 25 32 = ("1111111").data
        · rw [if_pos hz] at h
          exact absurd h (by simp)
        · rw [if_neg hz] at h
          exact unknownOpcodeMsg_ne _ (Except.error.inj h)
      · rw [hl] at h
        exact absurd h (by simp)
  · intro h
    unfold decode
    rw [if_neg (by simp [h])]

/-- C5 (code bug evaluation): on the spec's own example 003100B3 the
decoder resolves mnemonic add but renders the register operands through
the ABI-name table as ra, sp, gp — not as x1, x2, x3 as both the spec and
the repository's unit tests require; likewise 00208463 decodes to beq with
operands ra, sp, 8. -/
theorem decode_add_usesAbiRegisterNames :
    (decode (("003100B3").data)).toOption.map DecodedInstruction.mnemonic =
      some (("add").data) ∧
    (decode (("003100B3").data)).toOption.map DecodedInstruction.operands =
      some [("ra").data, ("sp").data, ("gp").data] ∧
    (decode (("00208463").data)).toOption.map DecodedInstruction.mnemonic =
      some (("beq").data) ∧
    (decode (("00208463").data)).toOption.map DecodedInstruction.operands =
      some [("ra").data, ("sp").data, ("8").data] := by
  refine ⟨rfl, rfl, rfl, rfl⟩

/-- C8 (code bug evaluation): on 123450B7 the decoder resolves lui but
renders the U-type immediate unshifted as the 5-hex-digit 0x12345, not as
the shifted 0x12345000 that the claim and the repository's unit tests
require. -/
theorem decode_lui_unshiftedImmediate :
    (decode (("123450B7").data)).toOption.map DecodedInstruction.mnemonic =
      some (("lui").data) ∧
    (decode (("123450B7").data)).toOption.map DecodedInstruction.operands =
      some [("ra").data, ('0' :: 'x' :: ("12345").data)] := by
  refine ⟨rfl, rfl⟩

/-- C9 (counterexample): decode("ffffffff") succeeds through the all-ones
sentinel branch and places the original lowercase input in the hex field,
which does not match the canonical pattern of 8 uppercase hex digits. -/
theorem decode_degenerate_hex_not_canonical :
    (decode (("ffffffff").data)).toOption.map DecodedInstruction.hex =
      some (("ffffffff").data) ∧
    isValidHex8 (("ffffffff").data) = false := by
  refine ⟨rfl, rfl⟩

/-- C9 (amended): on success with a recognized opcode the hex field is the
uppercased whitespace-stripped canonical form of the input and matches 8
uppercase hex digits; on a degenerate sentinel success the hex field is
the original input verbatim. -/
theorem decode_hex_canonical_cases (s : Str) (r : DecodedInstruction)
    (h : decode s = Except.ok r) :
    (∀ info, lookupA (jsSlice r.binary 25 32) opcodeMap = some info →
      r.hex = cleanOf s ∧ isValidHex8 r.hex = true) ∧
    (lookupA (jsSlice r.binary 25 32) opcodeMap = none → r.hex = s) := by
  obtain ⟨hv, hcases⟩ := decode_ok_cases s r h
  rcases hcases with ⟨info, hl, hr⟩ | ⟨hl, hz, hr⟩
  · subst hr
    have hbin : (mkResult (cleanOf s) info).binary = hexToBinary (cleanOf s) := rfl
    constructor
    · intro info2 _
      have hhex : (mkResult (cleanOf s) info).hex = cleanOf s := rfl
      rw [hhex]
      exact ⟨rfl, hv⟩
    · intro hnone
      rw [hbin] at hnone
      rw [hnone] at hl
      cases hl
  · subst hr
    constructor
    · intro info2 hl2
      have hbin : (mkDegenerate s (hexToBinary (cleanOf s))
          (jsSlice (hexToBinary (cleanOf s)) 25 32)).binary = hexToBinary (cleanOf s) := rfl
      rw [hbin] at hl2
      rw [hl2] at hl
      cases hl
    · intro _
      rfl

/-- The decoded record produced for the add example 003100B3 (used to
instantiate hypothesis-bearing theorems at a concrete input). -/
def addExample : DecodedInstruction :=
  { hex := ("003100B3").data,
    binary := ("00000000001100010000000010110011").data,
    opcode := ("0110011").data,
    instructionType := ("R").data,
    mnemonic := ("add").data,
    operands := [("ra").data, ("sp").data, ("gp").data],
    description := ("Add two registers").data,
    fields := [(("funct7").data, ("0000000").data),
               (("rs2").data, ("00011").data),
               (("rs1").data, ("00010").data),
               (("funct3").data, ("000").data),
               (("rd").data, ("00001").data),
               (("opcode").data, ("0110011").data)] }

/-- C9 (witness): the amended statement evaluated on the add example. -/
theorem decode_hex_canonical_cases_witness :
    addExample.hex = cleanOf (("003100B3").data) ∧
      isValidHex8 addExample.hex = true :=
  (decode_hex_canonical_cases (("003100B3").data) addExample (by rfl)).1
    infoRType (by rfl)

/-- Slice length inside a 32-character string. -/
theorem jsSlice_len32 (b : Str) (hb : b.length = 32) (a c : Nat) (hc : c ≤ 32) :
    (jsSlice b a c).length = c - a :=
  jsSlice_length b a c (by omega)

/-- The opcode slice of a 32-character binary string is its last 7
characters. -/
theorem jsSlice_opcode_tail (b : Str) (hb : b.length = 32) :
    jsSlice b 25 32 = b.drop 25 := by
  unfold jsSlice
  rw [← hb, List.take_length]

/-- Concatenation of a list of strings in order. -/
def concatAll (xs : List Str) : Str := xs.foldr (fun a b => a ++ b) []

/-- A fields entry carries the declared name and has the declared bit
width. -/
abbrev fieldMatchesRange (fld : Str × Str) (rng : Str × Nat × Nat) : Prop :=
  fld.1 = rng.1 ∧ fld.2.length = rng.2.2 - rng.2.1 + 1

/-- Field widths and reconstruction for the R format. -/
theorem fields_spec_R (b : Str) (hb : b.length = 32) :
    List.Forall₂ fieldMatchesRange (extractFields b fmtR) fmtR.bitRanges ∧
    concatAll ((extractFields b fmtR).map Prod.snd) = b := by
  constructor
  · refine .cons ⟨rfl, ?_⟩ (.cons ⟨rfl, ?_⟩ (.cons ⟨rfl, ?_⟩ (.cons ⟨rfl, ?_⟩
      (.cons ⟨rfl, ?_⟩ (.cons ⟨rfl, ?_⟩ .nil)))))
    all_goals (rw [jsSlice_len32 b hb] <;> decide)
  · show jsSlice b 0 7 ++ (jsSlice b 7 12 ++ (jsSlice b 12 17 ++ (jsSlice b 17 20 ++
      (jsSlice b 20 25 ++ (jsSlice b 25 32 ++ []))))) = b
    rw [List.append_nil,
        jsSlice_append b 20 25 32 (by omega) (by omega) (by omega),
        jsSlice_append b 17 20 32 (by omega) (by omega) (by omega),
        jsSlice_append b 12 17 32 (by omega) (by omega) (by omega),
        jsSlice_append b 7 12 32 (by omega) (by omega) (by omega),
        jsSlice_append b 0 7 32 (by omega) (by omega) (by omega),
        ← hb]
    exact jsSlice_full b

/-- Field widths and reconstruction for the I format. -/
theorem fields_spec_I (b : Str) (hb : b.length = 32) :
    List.Forall₂ fieldMatchesRange (extractFields b fmtI) fmtI.bitRanges ∧
    concatAll ((extractFields b fmtI).map Prod.snd) = b := by
  constructor
  · refine .cons ⟨rfl, ?_⟩ (.cons ⟨rfl, ?_⟩ (.cons ⟨rfl, ?_⟩ (.cons ⟨rfl, ?_⟩
      (.cons ⟨rfl, ?_⟩ .nil))))
    all_goals (rw [jsSlice_len32 b hb] <;> decide)
  · show jsSlice b 0 12 ++ (jsSlice b 12 17 ++ (jsSlice b 17 20 ++
      (jsSlice b 20 25 ++ (jsSlice b 25 32 ++ [])))) = b
    rw [List.append_nil,
        jsSlice_append b 20 25 32 (by omega) (by omega) (by omega),
        jsSlice_append b 17 20 32 (by omega) (by omega) (by omega),
        jsSlice_append b 12 17 32 (by omega) (by omega) (by omega),
        jsSlice_append b 0 12 32 (by omega) (by omega) (by omega),
        ← hb]
    exact jsSlice_full b

/-- Field widths and reconstruction for the S format. -/
theorem fields_spec_S (b : Str) (hb : b.length = 32) :
    List.Forall₂ fieldMatchesRange (extractFields b fmtS) fmtS.bitRanges ∧
    concatAll ((extractFields b fmtS).map Prod.snd) = b := by
  constructor
  · refine .cons ⟨rfl, ?_⟩ (.cons ⟨rfl, ?_⟩ (.cons ⟨rfl, ?_⟩ (.cons ⟨rfl, ?_⟩
      (.cons ⟨rfl, ?_⟩ (.cons ⟨rfl, ?_⟩ .nil)))))
    all_goals (rw [jsSlice_len32 b hb] <;> decide)
  · show jsSlice b 0 7 ++ (jsSlice b 7 12 ++ (jsSlice b 12 17 ++ (jsSlice b 17 20 ++
      (jsSlice b 20 25 ++ (jsSlice b 25 32 ++ []))))) = b
    rw [List.append_nil,
        jsSlice_append b 20 25 32 (by omega) (by omega) (by omega),
        jsSlice_append b 17 20 32 (by omega) (by omega) (by omega),
        jsSlice_append b 12 17 32 (by omega) (by omega) (by omega),
        jsSlice_append b 7 12 32 (by omega) (by omega) (by omega),
        jsSlice_append b 0 7 32 (by omega) (by omega) (by omega),
        ← hb]
    exact jsSlice_full b

/-- Field widths and reconstruction for the B format. -/
theorem fields_spec_B (b : Str) (hb : b.length = 32) :
    List.Forall₂ fieldMatchesRange (extractFields b fmtB) fmtB.bitRanges ∧
    concatAll ((extractFields b fmtB).map Prod.snd) = b := by
  constructor
  · refine .cons ⟨rfl, ?_⟩ (.cons ⟨rfl, ?_⟩ (.cons ⟨rfl, ?_⟩ (.cons ⟨rfl, ?_⟩
      (.cons ⟨rfl, ?_⟩ (.cons ⟨rfl, ?_⟩ .nil)))))
    all_goals (rw [jsSlice_len32 b hb] <;> decide)
  · show jsSlice b 0 7 ++ (jsSlice b 7 12 ++ (jsSlice b 12 17 ++ (jsSlice b 17 20 ++
      (jsSlice b 20 25 ++ (jsSlice b 25 32 ++ []))))) = b
    rw [List.append_nil,
        jsSlice_append b 20 25 32 (by omega) (by omega) (by omega),
        jsSlice_append b 17 20 32 (by omega) (by omega) (by omega),
        jsSlice_append b 12 17 32 (by omega) (by omega) (by omega),
        jsSlice_append b 7 12 32 (by omega) (by omega) (by omega),
        jsSlice_append b 0 7 32 (by omega) (by omega) (by omega),
        ← hb]
    exact jsSlice_full b

/-- Field widths and reconstruction for the U format. -/
theorem fields_spec_U (b : Str) (hb : b.length = 32) :
    List.Forall₂ fieldMatchesRange (extractFields b fmtU) fmtU.bitRanges ∧
    concatAll ((extractFields b fmtU).map Prod.snd) = b := by
  constructor
  · refine .cons ⟨rfl, ?_⟩ (.cons ⟨rfl, ?_⟩ (.cons ⟨rfl, ?_⟩ .nil))
    all_goals (rw [jsSlice_len32 b hb] <;> decide)
  · show jsSlice b 0 20 ++ (jsSlice b 20 25 ++ (jsSlice b 25 32 ++ [])) = b
    rw [List.append_nil,
        jsSlice_append b 20 25 32 (by omega) (by omega) (by omega),
        jsSlice_append b 0 20 32 (by omega) (by omega) (by omega),
        ← hb]
    exact jsSlice_full b

/-- Field widths and reconstruction for the J format. -/
theorem fields_spec_J (b : Str) (hb : b.length = 32) :
    List.Forall₂ fieldMatchesRange (extractFields b fmtJ) fmtJ.bitRanges ∧
    concatAll ((extractFields b fmtJ).map Prod.snd) = b := by
  constructor
  · refine .cons ⟨rfl, ?_⟩ (.cons ⟨rfl, ?_⟩ (.cons ⟨rfl, ?_⟩ .nil))
    all_goals (rw [jsSlice_len32 b hb] <;> decide)
  · show jsSlice b 0 20 ++ (jsSlice b 20 25 ++ (jsSlice b 25 32 ++ [])) = b
    rw [List.append_nil,
        jsSlice_append b 20 25 32 (by omega) (by omega) (by omega),
        jsSlice_append b 0 20 32 (by omega) (by omega) (by omega),
        ← hb]
    exact jsSlice_full b

/-- C2: every successful decode carries a 32-character binary string whose
base-2 value equals the base-16 value of the canonical hex input, and for
every recognized opcode the extracted fields carry the declared names, have
exactly the declared bit widths, and concatenate in declaration order back
to the binary string. -/
theorem decode_binary_fields_roundtrip (s : Str) (r : DecodedInstruction)
    (h : decode s = Except.ok r) :
    r.binary.length = 32 ∧
    parseIntBin r.binary = parseIntHex (cleanOf s) ∧
    (∀ info fmt, lookupA (jsSlice r.binary 25 32) opcodeMap = some info →
      lookupA info.instructionType instructionFormats = some fmt →
      List.Forall₂ fieldMatchesRange r.fields fmt.bitRanges ∧
      concatAll (r.fields.map Prod.snd) = r.binary) := by
  obtain ⟨hv, hcases⟩ := decode_ok_cases s r h
  have hn := parseIntHex_lt_of_valid _ hv
  have hblen := hexToBinary_length (cleanOf s) hn
  rcases hcases with ⟨info, hl, hr⟩ | ⟨hl, hz, hr⟩
  · subst hr
    have hbin : (mkResult (cleanOf s) info).binary = hexToBinary (cleanOf s) := rfl
    rw [hbin]
    refine ⟨hblen, parseIntBin_hexToBinary (cleanOf s), ?_⟩
    intro info2 fmt hl2 hfmt
    have hi2 : info2 = info := by
      rw [hl2] at hl
      exact Option.some.inj hl
    subst hi2
    rcases opcodeMap_cases _ _ hl2 with ⟨hop, rfl⟩ | ⟨hop, rfl⟩ | ⟨hop, rfl⟩ |
      ⟨hop, rfl⟩ | ⟨hop, rfl⟩ | ⟨hop, rfl⟩ | ⟨hop, rfl⟩ | ⟨hop, rfl⟩ |
      ⟨hop, rfl⟩ | ⟨hop, rfl⟩ | ⟨hop, rfl⟩
    · rw [show lookupA infoRType.instructionType instructionFormats = some fmtR from rfl] at hfmt
      rw [← Option.some.inj hfmt]
      exact fields_spec_R (hexToBinary (cleanOf s)) hblen
    · rw [show lookupA infoIArith.instructionType instructionFormats = some fmtI from rfl] at hfmt
      rw [← Option.some.inj hfmt]
      exact fields_spec_I (hexToBinary (cleanOf s)) hblen
    · rw [show lookupA infoILoad.instructionType instructionFormats = some fmtI from rfl] at hfmt
      rw [← Option.some.inj hfmt]
      exact fields_spec_I (hexToBinary (cleanOf s)) hblen
    · rw [show lookupA infoStore.instructionType instructionFormats = some fmtS from rfl] at hfmt
      rw [← Option.some.inj hfmt]
      exact fields_spec_S (hexToBinary (cleanOf s)) hblen
    · rw [show lookupA infoBranch.instructionType instructionFormats = some fmtB from rfl] at hfmt
      rw [← Option.some.inj hfmt]
      exact fields_spec_B (hexToBinary (cleanOf s)) hblen
    · rw [show lookupA infoLui.instructionType instructionFormats = some fmtU from rfl] at hfmt
      rw [← Option.some.inj hfmt]
      exact fields_spec_U (hexToBinary (cleanOf s)) hblen
    · rw [show lookupA infoAuipc.instructionType instructionFormats = some fmtU from rfl] at hfmt
      rw [← Option.some.inj hfmt]
      exact fields_spec_U (hexToBinary (cleanOf s)) hblen
    · rw [show lookupA infoJal.instructionType instructionFormats = some fmtJ from rfl] at hfmt
      rw [← Option.some.inj hfmt]
      exact fields_spec_J (hexToBinary (cleanOf s)) hblen
    · rw [show lookupA infoJalr.instructionType instructionFormats = some fmtI from rfl] at hfmt
      rw [← Option.some.inj hfmt]
      exact fields_spec_I (hexToBinary (cleanOf s)) hblen
    · rw [show lookupA infoFence.instructionType instructionFormats = some fmtI from rfl] at hfmt
      rw [← Option.some.inj hfmt]
      exact fields_spec_I (hexToBinary (cleanOf s)) hblen
    · rw [show lookupA infoSystem.instructionType instructionFormats = some fmtI from rfl] at hfmt
      rw [← Option.some.inj hfmt]
      exact fields_spec_I (hexToBinary (cleanOf s)) hblen
  · subst hr
    have hbin : (mkDegenerate s (hexToBinary (cleanOf s))
        (jsSlice (hexToBinary (cleanOf s)) 25 32)).binary = hexToBinary (cleanOf s) := rfl
    rw [hbin]
    refine ⟨hblen, parseIntBin_hexToBinary (cleanOf s), ?_⟩
    intro info2 fmt hl2 _
    rw [hl2] at hl
    cases hl

/-- C2 (witness): the roundtrip statement evaluated on the addi example
F9C10093. -/
theorem decode_binary_fields_roundtrip_witness :
    ∃ r, decode (("F9C10093").data) = Except.ok r ∧
      r.binary.length = 32 ∧
      parseIntBin r.binary = parseIntHex (cleanOf (("F9C10093").data)) ∧
      List.Forall₂ fieldMatchesRange r.fields fmtI.bitRanges ∧
      concatAll (r.fields.map Prod.snd) = r.binary := by
  refine ⟨mkResult (("F9C10093").data) infoIArith, rfl, ?_⟩
  have h := decode_binary_fields_roundtrip (("F9C10093").data)
    (mkResult (("F9C10093").data) infoIArith) rfl
  exact ⟨h.1, h.2.1, h.2.2 infoIArith fmtI rfl rfl⟩

/-- C10: when decode succeeds with a recognized opcode, the fields mapping
contains an entry named opcode whose value is the result's top-level opcode
string, which is the last 7 characters of the 32-character binary string. -/
theorem decode_fields_opcode_entry (s : Str) (r : DecodedInstruction)
    (info : OpcodeInfo) (h : decode s = Except.ok r)
    (hl : lookupA (jsSlice r.binary 25 32) opcodeMap = some info) :
    r.binary.length = 32 ∧ r.opcode = r.binary.drop 25 ∧
    lookupA (("opcode").data) r.fields = some r.opcode := by
  obtain ⟨hv, hcases⟩ := decode_ok_cases s r h
  have hn := parseIntHex_lt_of_valid _ hv
  have hblen := hexToBinary_length (cleanOf s) hn
  rcases hcases with ⟨info2, hl2, hr⟩ | ⟨hl2, hz, hr⟩
  · subst hr
    have hbin : (mkResult (cleanOf s) info2).binary = hexToBinary (cleanOf s) := rfl
    refine ⟨by rw [hbin]; exact hblen, ?_, ?_⟩
    · have hopc : (mkResult (cleanOf s) info2).opcode =
          jsSlice (hexToBinary (cleanOf s)) 25 32 := rfl
      rw [hopc, hbin]
      exact jsSlice_opcode_tail _ hblen
    · rcases opcodeMap_cases _ _ hl2 with ⟨hop, rfl⟩ | ⟨hop, rfl⟩ | ⟨hop, rfl⟩ |
        ⟨hop, rfl⟩ | ⟨hop, rfl⟩ | ⟨hop, rfl⟩ | ⟨hop, rfl⟩ | ⟨hop, rfl⟩ |
        ⟨hop, rfl⟩ | ⟨hop, rfl⟩ | ⟨hop, rfl⟩ <;> rfl
  · subst hr
    have hbin : (mkDegenerate s (hexToBinary (cleanOf s))
        (jsSlice (hexToBinary (cleanOf s)) 25 32)).binary =
          hexToBinary (cleanOf s) := rfl
    rw [hbin] at hl
    rw [hl2] at hl
    cases hl

/-- C10 (witness): the opcode fields entry evaluated on the lb example
06410083. -/
theorem decode_fields_opcode_entry_witness :
    (mkResult (("06410083").data) infoILoad).binary.length = 32 ∧
    (mkResult (("06410083").data) infoILoad).opcode =
      (mkResult (("06410083").data) infoILoad).binary.drop 25 ∧
    lookupA (("opcode").data) (mkResult (("06410083").data) infoILoad).fields =
      some (mkResult (("06410083").data) infoILoad).opcode :=
  decode_fields_opcode_entry (("06410083").data)
    (mkResult (("06410083").data) infoILoad) infoILoad rfl (by rfl)

/-- C3: for a valid 8-hex-digit input whose 7-bit opcode is not in the
opcode table, decode succeeds with the degenerate record when the opcode is
all zeros or all ones (with the Unknown family, mnemonic unknown, empty
operands, empty fields and the fixed description), and otherwise fails with
the UnknownOpcode message carrying the 7-bit pattern; in particular
FFFFFFFE fails while FFFFFFFF succeeds degenerately. -/
theorem decode_unmappedOpcode_behavior :
    (∀ s, isValidHex8 (cleanOf s) = true →
      lookupA (jsSlice (hexToBinary (cleanOf s)) 25 32) opcodeMap = none →
      ((jsSlice (hexToBinary (cleanOf s)) 25 32 = ("0000000").data ∨
        jsSlice (hexToBinary (cleanOf s)) 25 32 = ("1111111").data) →
        decode s = Except.ok
          { hex := s, binary := hexToBinary (cleanOf s),
            opcode := jsSlice (hexToBinary (cleanOf s)) 25 32,
            instructionType := ("unknown").data, mnemonic := ("unknown").data,
            operands := [], description := ("Unknown instruction").data,
            fields := [] }) ∧
      (jsSlice (hexToBinary (cleanOf s)) 25 32 ≠ ("0000000").data →
       jsSlice (hexToBinary (cleanOf s)) 25 32 ≠ ("1111111").data →
        decode s = Except.error
          (("Unknown opcode: ").data ++ jsSlice (hexToBinary (cleanOf s)) 25 32))) ∧
    decode (("FFFFFFFE").data) = Except.error (("Unknown opcode: 1111110").data) ∧
    decode (("FFFFFFFF").data) = Except.ok
      { hex := ("FFFFFFFF").data,
        binary := ("11111111111111111111111111111111").data,
        opcode := ("1111111").data, instructionType := ("unknown").data,
        mnemonic := ("unknown").data, operands := [],
        description := ("Unknown instruction").data, fields := [] } := by
  refine ⟨?_, rfl, rfl⟩
  intro s hv hl
  constructor
  · intro hz
    unfold decode
    rw [if_pos hv]
    dsimp only
    rw [hl]
    dsimp only
    rw [if_pos hz]
    rfl
  · intro h0 h1
    unfold decode
    rw [if_pos hv]
    dsimp only
    rw [hl]
    dsimp only
    rw [if_neg (by tauto)]
    rfl

/-- C3 (witness): the degenerate branch evaluated on the all-zero word. -/
theorem decode_unmappedOpcode_behavior_witness :
    decode (("00000000").data) = Except.ok
      { hex := ("00000000").data,
        binary := ("00000000000000000000000000000000").data,
        opcode := ("0000000").data, instructionType := ("unknown").data,
        mnemonic := ("unknown").data, operands := [],
        description := ("Unknown instruction").data, fields := [] } :=
  (decode_unmappedOpcode_behavior.1 (("00000000").data) (by rfl) (by rfl)).1
    (Or.inl (by rfl))

/-- The instruction type of a table-driven result is the table entry's. -/
theorem mkResult_instructionType (clean : Str) (info : OpcodeInfo) :
    (mkResult clean info).instructionType = info.instructionType := rfl

/-- The instruction type of a degenerate result is the unknown sentinel. -/
theorem mkDegenerate_instructionType (a b c : Str) :
    (mkDegenerate a b c).instructionType = ("unknown").data := rfl

/-- The B-format immediate bit-string exactly as the specification words
it: imm12 (bit 0 of the hi field), imm11 (bit 4 of the lo field), imm10:5
(bits 1 to 6 of the hi field), imm4:1 (bits 0 to 3 of the lo field), and a
trailing 0 bit. -/
def specBImmediateBits (hi lo : Str) : Str :=
  jsSlice hi 0 1 ++ jsSlice lo 4 5 ++ jsSlice hi 1 7 ++ jsSlice lo 0 4 ++ ['0']

/-- The B-format branch offset per the specification: the reconstructed
13-bit string interpreted as a two'\''s-complement value. -/
def specBImmediate (hi lo : Str) : Int := signExtend (specBImmediateBits hi lo) 13

/-- The decoder's index/negative-slice B-immediate construction agrees with
the specification's slices at the actual field widths. -/
theorem bImmBits_code_eq_spec (hi lo : Str) (hhi : hi.length = 7)
    (hlo : lo.length = 5) :
    hi.take 1 ++ lo.drop (lo.length - 1) ++ hi.drop 1 ++
      lo.take (lo.length - 1) ++ ['0'] = specBImmediateBits hi lo := by
  unfold specBImmediateBits jsSlice
  rw [hlo]
  simp only [List.drop_zero]
  rw [show lo.take 5 = lo from by rw [← hlo]; exact List.take_length lo,
      show hi.take 7 = hi from by rw [← hhi]; exact List.take_length hi]

/-- The specification's B immediate is always even: the reconstructed bit
string ends in a 0 bit, and the sign correction subtracts an even power of
two. -/
theorem specBImmediate_even (hi lo : Str) : specBImmediate hi lo % 2 = 0 := by
  have hv : parseIntBin (specBImmediateBits hi lo) =
      2 * parseIntBin (jsSlice hi 0 1 ++ jsSlice lo 4 5 ++
        jsSlice hi 1 7 ++ jsSlice lo 0 4) := by
    unfold specBImmediateBits
    rw [parseIntBin_append]
    have h0 : parseIntBin ['0'] = 0 := rfl
    rw [h0]
    simp [Nat.mul_comm]
  unfold specBImmediate signExtend
  dsimp only
  rw [hv]
  split <;> omega

/-- C4: every successfully decoded B-format result carries the hi and lo
immediate fields at their declared widths and renders its third operand as
the signed decimal of the specification's reconstructed 13-bit immediate,
which is always even. -/
theorem decode_bType_thirdOperand (s : Str) (r : DecodedInstruction)
    (h : decode s = Except.ok r) (hB : r.instructionType = ("B").data) :
    ∃ hi lo rs1 rs2,
      lookupA (("imm[12|10:5]").data) r.fields = some hi ∧
      lookupA (("imm[4:1|11]").data) r.fields = some lo ∧
      hi.length = 7 ∧ lo.length = 5 ∧
      r.operands = [rs1, rs2, intToDec (specBImmediate hi lo)] ∧
      specBImmediate hi lo % 2 = 0 := by
  obtain ⟨hv, hcases⟩ := decode_ok_cases s r h
  have hn := parseIntHex_lt_of_valid _ hv
  have hblen := hexToBinary_length (cleanOf s) hn
  rcases hcases with ⟨info, hl, hr⟩ | ⟨hl, hz, hr⟩
  · subst hr
    rcases opcodeMap_cases _ _ hl with ⟨hop, rfl⟩ | ⟨hop, rfl⟩ | ⟨hop, rfl⟩ |
      ⟨hop, rfl⟩ | ⟨hop, rfl⟩ | ⟨hop, rfl⟩ | ⟨hop, rfl⟩ | ⟨hop, rfl⟩ |
      ⟨hop, rfl⟩ | ⟨hop, rfl⟩ | ⟨hop, rfl⟩
    · rw [mkResult_instructionType] at hB
      exact absurd hB (by decide)
    · rw [mkResult_instructionType] at hB
      exact absurd hB (by decide)
    · rw [mkResult_instructionType] at hB
      exact absurd hB (by decide)
    · rw [mkResult_instructionType] at hB
      exact absurd hB (by decide)
    · have hhi : (jsSlice (hexToBinary (cleanOf s)) 0 7).length = 7 :=
        jsSlice_len32 _ hblen 0 7 (by omega)
      have hlo : (jsSlice (hexToBinary (cleanOf s)) 20 25).length = 5 :=
        jsSlice_len32 _ hblen 20 25 (by omega)
      refine ⟨jsSlice (hexToBinary (cleanOf s)) 0 7,
        jsSlice (hexToBinary (cleanOf s)) 20 25,
        getRegisterName (parseIntBin (jsSlice (hexToBinary (cleanOf s)) 12 17)),
        getRegisterName (parseIntBin (jsSlice (hexToBinary (cleanOf s)) 7 12)),
        rfl, rfl, hhi, hlo, ?_, specBImmediate_even _ _⟩
      have hops : (mkResult (cleanOf s) infoBranch).operands =
        [getRegisterName (parseIntBin (jsSlice (hexToBinary (cleanOf s)) 12 17)),
         getRegisterName (parseIntBin (jsSlice (hexToBinary (cleanOf s)) 7 12)),
         intToDec (signExtend
           ((jsSlice (hexToBinary (cleanOf s)) 0 7).take 1 ++
            (jsSlice (hexToBinary (cleanOf s)) 20 25).drop
              ((jsSlice (hexToBinary (cleanOf s)) 20 25).length - 1) ++
            (jsSlice (hexToBinary (cleanOf s)) 0 7).drop 1 ++
            (jsSlice (hexToBinary (cleanOf s)) 20 25).take
              ((jsSlice (hexToBinary (cleanOf s)) 20 25).length - 1) ++
            ['0']) 13)] := rfl
      rw [hops, bImmBits_code_eq_spec _ _ hhi hlo]
      rfl
    · rw [mkResult_instructionType] at hB
      exact absurd hB (by decide)
    · rw [mkResult_instructionType] at hB
      exact absurd hB (by decide)
    · rw [mkResult_instructionType] at hB
      exact absurd hB (by decide)
    · rw [mkResult_instructionType] at hB
      exact absurd hB (by decide)
    · rw [mkResult_instructionType] at hB
      exact absurd hB (by decide)
    · rw [mkResult_instructionType] at hB
      exact absurd hB (by decide)
  · subst hr
    rw [mkDegenerate_instructionType] at hB
    exact absurd hB (by decide)

/-- C4 (witness): the B-format operand statement evaluated on the beq
example 00208463. -/
theorem decode_bType_thirdOperand_witness :
    ∃ hi lo rs1 rs2,
      lookupA (("imm[12|10:5]").data)
        (mkResult (("00208463").data) infoBranch).fields = some hi ∧
      lookupA (("imm[4:1|11]").data)
        (mkResult (("00208463").data) infoBranch).fields = some lo ∧
      hi.length = 7 ∧ lo.length = 5 ∧
      (mkResult (("00208463").data) infoBranch).operands =
        [rs1, rs2, intToDec (specBImmediate hi lo)] ∧
      specBImmediate hi lo % 2 = 0 :=
  decode_bType_thirdOperand (("00208463").data)
    (mkResult (("00208463").data) infoBranch) rfl (by rfl)

/-- The opcode of a table-driven result is the 7-bit opcode slice. -/
theorem mkResult_opcode (clean : Str) (info : OpcodeInfo) :
    (mkResult clean info).opcode = jsSlice (hexToBinary clean) 25 32 := rfl

/-- The opcode of a degenerate result is the sentinel pattern. -/
theorem mkDegenerate_opcode (a b c : Str) : (mkDegenerate a b c).opcode = c := rfl

/-- The shift table has no entry for funct3 001, whatever the funct7 key. -/
theorem shiftLookup_001_none (x : Str) :
    (lookupA x iTypeShiftInstructions).bind (lookupA (("001").data)) = none := by
  unfold iTypeShiftInstructions
  rw [lookupA_cons, lookupA_cons]
  split_ifs <;> rfl

/-- slice(-5) on the 12-character immediate is the low-5-bit slice. -/
theorem lastFive_eq_slice (imm : Str) (h : imm.length = 12) :
    imm.drop (imm.length - 5) = jsSlice imm 7 12 := by
  unfold jsSlice
  rw [h, show imm.take 12 = imm from by rw [← h]; exact List.take_length imm]

/-- C6 (counterexample): with funct3 001 and funct7 0100000 (input
40511093) the decoder still resolves slli through the plain funct3 table
rather than the claimed unknown. -/
theorem decode_slli_ignores_funct7 :
    (decode (("40511093").data)).toOption.map DecodedInstruction.mnemonic =
      some (("slli").data) ∧
    (decode (("40511093").data)).toOption.map DecodedInstruction.operands =
      some [("ra").data, ("sp").data, ("5").data] := by
  refine ⟨rfl, rfl⟩

/-- C6 (amended): for opcode 0010011, funct3 001 resolves to slli for every
funct7 value (the shift table has no 001 entry, so the plain table always
applies); with funct3 101, funct7 0000000 gives srli and 0100000 gives
srai; and for funct3 in 001 or 101 the third operand is the unsigned
decimal of the low 5 bits of the 12-bit immediate. -/
theorem decode_arithShift_mnemonics (s : Str) (r : DecodedInstruction)
    (h : decode s = Except.ok r) (hop : r.opcode = ("0010011").data) :
    ∃ f3 imm,
      lookupA (("funct3").data) r.fields = some f3 ∧
      lookupA (("imm[11:0]").data) r.fields = some imm ∧
      (f3 = ("001").data → r.mnemonic = ("slli").data) ∧
      (f3 = ("101").data → jsSlice imm 0 7 = ("0000000").data →
        r.mnemonic = ("srli").data) ∧
      (f3 = ("101").data → jsSlice imm 0 7 = ("0100000").data →
        r.mnemonic = ("srai").data) ∧
      ((f3 = ("001").data ∨ f3 = ("101").data) →
        ∃ rd rs1, r.operands =
          [rd, rs1, natToDec (parseIntBin (jsSlice imm 7 12))]) := by
  obtain ⟨hv, hcases⟩ := decode_ok_cases s r h
  have hn := parseIntHex_lt_of_valid _ hv
  have hblen := hexToBinary_length (cleanOf s) hn
  rcases hcases with ⟨info, hl, hr⟩ | ⟨hl, hz, hr⟩
  · subst hr
    rcases opcodeMap_cases _ _ hl with ⟨hopEq, rfl⟩ | ⟨hopEq, rfl⟩ |
      ⟨hopEq, rfl⟩ | ⟨hopEq, rfl⟩ | ⟨hopEq, rfl⟩ | ⟨hopEq, rfl⟩ |
      ⟨hopEq, rfl⟩ | ⟨hopEq, rfl⟩ | ⟨hopEq, rfl⟩ | ⟨hopEq, rfl⟩ | ⟨hopEq, rfl⟩
    · rw [mkResult_opcode, hopEq] at hop
      exact absurd hop (by decide)
    · have hm : (mkResult (cleanOf s) infoIArith).mnemonic =
          (if jsSlice (hexToBinary (cleanOf s)) 17 20 = ("001").data ∨
              jsSlice (hexToBinary (cleanOf s)) 17 20 = ("101").data then
            match (lookupA (jsSlice (jsSlice (hexToBinary (cleanOf s)) 0 12) 0 7)
                iTypeShiftInstructions).bind
                (lookupA (jsSlice (hexToBinary (cleanOf s)) 17 20)) with
            | some m => m
            | none => (lookupA (jsSlice (hexToBinary (cleanOf s)) 17 20)
                iTypeInstructions).getD (("unknown").data)
          else (lookupA (jsSlice (hexToBinary (cleanOf s)) 17 20)
              iTypeInstructions).getD (("unknown").data)) := rfl
      have hops : (mkResult (cleanOf s) infoIArith).operands =
          [getRegisterName (parseIntBin (jsSlice (hexToBinary (cleanOf s)) 20 25)),
           getRegisterName (parseIntBin (jsSlice (hexToBinary (cleanOf s)) 12 17)),
           if jsSlice (hexToBinary (cleanOf s)) 17 20 = ("001").data ∨
              jsSlice (hexToBinary (cleanOf s)) 17 20 = ("101").data then
             natToDec (parseIntBin ((jsSlice (hexToBinary (cleanOf s)) 0 12).drop
               ((jsSlice (hexToBinary (cleanOf s)) 0 12).length - 5)))
           else intToDec (signExtend (jsSlice (hexToBinary (cleanOf s)) 0 12) 12)]
          := rfl
      refine ⟨jsSlice (hexToBinary (cleanOf s)) 17 20,
        jsSlice (hexToBinary (cleanOf s)) 0 12, rfl, rfl, ?_, ?_, ?_, ?_⟩
      · intro heq
        rw [hm, heq, if_pos (Or.inl rfl), shiftLookup_001_none]
        rfl
      · intro heq h7
        rw [hm, heq, if_pos (Or.inr rfl), h7]
        rfl
      · intro heq h7
        rw [hm, heq, if_pos (Or.inr rfl), h7]
        rfl
      · intro hOr
        refine ⟨getRegisterName (parseIntBin (jsSlice (hexToBinary (cleanOf s)) 20 25)),
          getRegisterName (parseIntBin (jsSlice (hexToBinary (cleanOf s)) 12 17)), ?_⟩
        rw [hops, if_pos hOr,
          lastFive_eq_slice _ (jsSlice_len32 _ hblen 0 12 (by omega))]
    · rw [mkResult_opcode, hopEq] at hop
      exact absurd hop (by decide)
    · rw [mkResult_opcode, hopEq] at hop
      exact absurd hop (by decide)
    · rw [mkResult_opcode, hopEq] at hop
      exact absurd hop (by decide)
    · rw [mkResult_opcode, hopEq] at hop
      exact absurd hop (by decide)
    · rw [mkResult_opcode, hopEq] at hop
      exact absurd hop (by decide)
    · rw [mkResult_opcode, hopEq] at hop
      exact absurd hop (by decide)
    · rw [mkResult_opcode, hopEq] at hop
      exact absurd hop (by decide)
    · rw [mkResult_opcode, hopEq] at hop
      exact absurd hop (by decide)
    · rw [mkResult_opcode, hopEq] at hop
      exact absurd hop (by decide)
  · subst hr
    rw [mkDegenerate_opcode] at hop
    rcases hz with hz | hz <;> rw [hz] at hop <;> exact absurd hop (by decide)

/-- C6 (witness): the amended shift statement evaluated on 40511093. -/
theorem decode_arithShift_mnemonics_witness :
    ∃ f3 imm,
      lookupA (("funct3").data)
        (mkResult (("40511093").data) infoIArith).fields = some f3 ∧
      lookupA (("imm[11:0]").data)
        (mkResult (("40511093").data) infoIArith).fields = some imm ∧
      (f3 = ("001").data →
        (mkResult (("40511093").data) infoIArith).mnemonic = ("slli").data) ∧
      (f3 = ("101").data → jsSlice imm 0 7 = ("0000000").data →
        (mkResult (("40511093").data) infoIArith).mnemonic = ("srli").data) ∧
      (f3 = ("101").data → jsSlice imm 0 7 = ("0100000").data →
        (mkResult (("40511093").data) infoIArith).mnemonic = ("srai").data) ∧
      ((f3 = ("001").data ∨ f3 = ("101").data) →
        ∃ rd rs1, (mkResult (("40511093").data) infoIArith).operands =
          [rd, rs1, natToDec (parseIntBin (jsSlice imm 7 12))]) :=
  decode_arithShift_mnemonics (("40511093").data)
    (mkResult (("40511093").data) infoIArith) rfl (by rfl)

/-- C7: for opcode 1110011, funct3 000 resolves ecall on the all-zero
12-bit immediate, ebreak on 000000000001 and unknown otherwise; the other
funct3 values resolve through the CSR table; and ecall and ebreak results
carry an empty operand list. -/
theorem decode_system_mnemonics (s : Str) (r : DecodedInstruction)
    (h : decode s = Except.ok r) (hop : r.opcode = ("1110011").data) :
    ∃ f3 imm,
      lookupA (("funct3").data) r.fields = some f3 ∧
      lookupA (("imm[11:0]").data) r.fields = some imm ∧
      (f3 = ("000").data →
        (imm = ("000000000000").data → r.mnemonic = ("ecall").data) ∧
        (imm = ("000000000001").data → r.mnemonic = ("ebreak").data) ∧
        (imm ≠ ("000000000000").data → imm ≠ ("000000000001").data →
          r.mnemonic = ("unknown").data)) ∧
      (f3 = ("001").data → r.mnemonic = ("csrrw").data) ∧
      (f3 = ("010").data → r.mnemonic = ("csrrs").data) ∧
      (f3 = ("011").data → r.mnemonic = ("csrrc").data) ∧
      (f3 = ("101").data → r.mnemonic = ("csrrwi").data) ∧
      (f3 = ("110").data → r.mnemonic = ("csrrsi").data) ∧
      (f3 = ("111").data → r.mnemonic = ("csrrci").data) ∧
      ((r.mnemonic = ("ecall").data ∨ r.mnemonic = ("ebreak").data) →
        r.operands = []) := by
  obtain ⟨hv, hcases⟩ := decode_ok_cases s r h
  rcases hcases with ⟨info, hl, hr⟩ | ⟨hl, hz, hr⟩
  · subst hr
    rcases opcodeMap_cases _ _ hl with ⟨hopEq, rfl⟩ | ⟨hopEq, rfl⟩ |
      ⟨hopEq, rfl⟩ | ⟨hopEq, rfl⟩ | ⟨hopEq, rfl⟩ | ⟨hopEq, rfl⟩ |
      ⟨hopEq, rfl⟩ | ⟨hopEq, rfl⟩ | ⟨hopEq, rfl⟩ | ⟨hopEq, rfl⟩ | ⟨hopEq, rfl⟩
    · rw [mkResult_opcode, hopEq] at hop
      exact absurd hop (by decide)
    · rw [mkResult_opcode, hopEq] at hop
      exact absurd hop (by decide)
    · rw [mkResult_opcode, hopEq] at hop
      exact absurd hop (by decide)
    · rw [mkResult_opcode, hopEq] at hop
      exact absurd hop (by decide)
    · rw [mkResult_opcode, hopEq] at hop
      exact absurd hop (by decide)
    · rw [mkResult_opcode, hopEq] at hop
      exact absurd hop (by decide)
    · rw [mkResult_opcode, hopEq] at hop
      exact absurd hop (by decide)
    · rw [mkResult_opcode, hopEq] at hop
      exact absurd hop (by decide)
    · rw [mkResult_opcode, hopEq] at hop
      exact absurd hop (by decide)
    · rw [mkResult_opcode, hopEq] at hop
      exact absurd hop (by decide)
    · have hm : (mkResult (cleanOf s) infoSystem).mnemonic =
          (if jsSlice (hexToBinary (cleanOf s)) 17 20 = ("000").data then
            if jsSlice (hexToBinary (cleanOf s)) 0 12 = ("000000000000").data then
              ("ecall").data
            else if jsSlice (hexToBinary (cleanOf s)) 0 12 = ("000000000001").data then
              ("ebreak").data
            else ("unknown").data
          else (lookupA (jsSlice (hexToBinary (cleanOf s)) 17 20)
              csrInstructions).getD (("unknown").data)) := rfl
      obtain ⟨alt, hops⟩ : ∃ alt, (mkResult (cleanOf s) infoSystem).operands =
          (if (mkResult (cleanOf s) infoSystem).mnemonic = ("ecall").data ∨
              (mkResult (cleanOf s) infoSystem).mnemonic = ("ebreak").data then []
           else alt) := ⟨_, rfl⟩
      refine ⟨jsSlice (hexToBinary (cleanOf s)) 17 20,
        jsSlice (hexToBinary (cleanOf s)) 0 12, rfl, rfl, ?_, ?_, ?_, ?_, ?_, ?_, ?_, ?_⟩
      · intro h3
        refine ⟨?_, ?_, ?_⟩
        · intro himm
          rw [hm, h3, himm]
          rfl
        · intro himm
          rw [hm, h3, himm]
          rfl
        · intro himm0 himm1
          rw [hm, h3, if_pos rfl, if_neg himm0, if_neg himm1]
      · intro h3
        rw [hm, h3]
        rfl
      · intro h3
        rw [hm, h3]
        rfl
      · intro h3
        rw [hm, h3]
        rfl
      · intro h3
        rw [hm, h3]
        rfl
      · intro h3
        rw [hm, h3]
        rfl
      · intro h3
        rw [hm, h3]
        rfl
      · intro hEc
        rw [hops, if_pos hEc]
  · subst hr
    rw [mkDegenerate_opcode] at hop
    rcases hz with hz | hz <;> rw [hz] at hop <;> exact absurd hop (by decide)

/-- C7 (witness): the system statement evaluated on the ecall word
00000073. -/
theorem decode_system_mnemonics_witness :
    ∃ f3 imm,
      lookupA (("funct3").data)
        (mkResult (("00000073").data) infoSystem).fields = some f3 ∧
      lookupA (("imm[11:0]").data)
        (mkResult (("00000073").data) infoSystem).fields = some imm ∧
      (f3 = ("000").data →
        (imm = ("000000000000").data →
          (mkResult (("00000073").data) infoSystem).mnemonic = ("ecall").data) ∧
        (imm = ("000000000001").data →
          (mkResult (("00000073").data) infoSystem).mnemonic = ("ebreak").data) ∧
        (imm ≠ ("000000000000").data → imm ≠ ("000000000001").data →
          (mkResult (("00000073").data) infoSystem).mnemonic = ("unknown").data)) ∧
      (f3 = ("001").data →
        (mkResult (("00000073").data) infoSystem).mnemonic = ("csrrw").data) ∧
      (f3 = ("010").data →
        (mkResult (("00000073").data) infoSystem).mnemonic = ("csrrs").data) ∧
      (f3 = ("011").data →
        (mkResult (("00000073").data) infoSystem).mnemonic = ("csrrc").data) ∧
      (f3 = ("101").data →
        (mkResult (("00000073").data) infoSystem).mnemonic = ("csrrwi").data) ∧
      (f3 = ("110").data →
        (mkResult (("00000073").data) infoSystem).mnemonic = ("csrrsi").data) ∧
      (f3 = ("111").data →
        (mkResult (("00000073").data) infoSystem).mnemonic = ("csrrci").data) ∧
      (((mkResult (("00000073").data) infoSystem).mnemonic = ("ecall").data ∨
        (mkResult (("00000073").data) infoSystem).mnemonic = ("ebreak").data) →
        (mkResult (("00000073").data) infoSystem).operands = []) :=
  decode_system_mnemonics (("00000073").data)
    (mkResult (("00000073").data) infoSystem) rfl (by rfl)
